import Mathlib

/-
Shallow embedding of the core of the mcp-mssql-connector server
(src/index.ts): the security validator, the query executor with its
row-limit injection and metrics updates, the connection-pool registry,
and the bulk-insert engine.  Queries are strings; JavaScript regular
expressions are embedded as explicit character-list scanners with the
same matching semantics on the inputs of interest.  The database itself
is external to the repository and is modelled by explicit outcome
parameters (rows available, per-batch affected counts, connect success).
-/

namespace MSSQL

/-! ### Character classes and basic string scanning -/

/-- Whitespace as matched by the \s class and by trim in JavaScript
(ASCII fragment). -/
def isSpaceJS (c : Char) : Bool :=
  c = ' ' || c = '\t' || c = '\n' || c = '\r' || c = '\x0b' || c = '\x0c'

/-- Line terminators, which the dot of a JavaScript regex never matches. -/
def isNl (c : Char) : Bool := c = '\n' || c = '\r'

/-- Word characters, the \w class of a JavaScript regex. -/
def wordChar (c : Char) : Bool := c.isAlphanum || c = '_'

/-- Drop leading and trailing whitespace, as the trim method does. -/
def trimChars (l : List Char) : List Char :=
  ((l.dropWhile isSpaceJS).reverse.dropWhile isSpaceJS).reverse

/-- Embedding of the trim method on strings. -/
def jsTrim (s : String) : String := String.mk (trimChars s.data)

/-- Case-insensitive prefix test; the pattern is given in lowercase. -/
def prefixCI : List Char → List Char → Bool
  | [], _ => true
  | _ :: _, [] => false
  | p :: ps, c :: cs => (c.toLower == p) && prefixCI ps cs

/-- Substring containment, the includes method of JavaScript strings. -/
def containsSub : List Char → List Char → Bool
  | [], needle => needle.isEmpty
  | l@(_ :: t), needle => needle.isPrefixOf l || containsSub t needle

/-- Does some suffix of the list satisfy the predicate?  Used to run an
anchored matcher at every position, as regex test does. -/
def anySuffix (p : List Char → Bool) : List Char → Bool
  | [] => p []
  | l@(_ :: t) => p l || anySuffix p t

/-! ### The fixed dangerous-pattern set of SecurityValidator.validateQuery -/

/-- Keyword (lowercase) followed by at least one whitespace character. -/
def kwThenWs (kw : List Char) (l : List Char) : Bool :=
  prefixCI kw l &&
    (match l.drop kw.length with
     | c :: _ => isSpaceJS c
     | [] => false)

/-- Anchored matcher for the statement-chaining pattern
;\s*(drop|truncate|alter)\s+ (case-insensitive). -/
def pat1At : List Char → Bool
  | ';' :: t =>
      let t2 := t.dropWhile isSpaceJS
      kwThenWs "drop".data t2 || kwThenWs "truncate".data t2 ||
        kwThenWs "alter".data t2
  | _ => false

/-- Scanner for the dot-star-select tail: select may appear after any
run of non-newline characters. -/
def scanDotSelect : List Char → Bool
  | [] => false
  | l@(c :: t) => prefixCI "select".data l || (!isNl c && scanDotSelect t)

/-- Scanner for the whitespace-plus then dot-star-select tail. -/
def scanWsSelect : List Char → Bool
  | [] => false
  | c :: t => isSpaceJS c && (scanDotSelect t || scanWsSelect t)

/-- Anchored matcher for the union-select chaining pattern
union\s+.*select (case-insensitive). -/
def pat2At (l : List Char) : Bool :=
  prefixCI "union".data l && scanWsSelect (l.drop 5)

/-- Is there a block-comment close on the same line? -/
def closeSameLine : List Char → Bool
  | [] => false
  | '*' :: '/' :: _ => true
  | c :: t => !isNl c && closeSameLine t

/-- Anchored matcher for a block comment opened and closed on one line. -/
def pat3At : List Char → Bool
  | '/' :: '*' :: t => closeSameLine t
  | _ => false

/-- Anchored matcher for a system-procedure name such as xp_name or
sp_name: the two letters, an underscore and at least one word character
(case-insensitive). -/
def procPatAt (a b : Char) : List Char → Bool
  | x :: y :: u :: c :: _ =>
      x.toLower == a && y.toLower == b && u == '_' && wordChar c
  | _ => false

/-- The six dangerous patterns of validateQuery, each paired with the
source text of the regex, which is what the error message reports. -/
def dangerousPatterns : List ((List Char → Bool) × String) :=
  [ (anySuffix pat1At, ";\\s*(drop|truncate|alter)\\s+"),
    (anySuffix pat2At, "union\\s+.*select"),
    (anySuffix pat3At, "\\/\\*.*\\*\\/"),
    (fun l => containsSub l "--".data, "--.*$"),
    (anySuffix (procPatAt 'x' 'p'), "xp_[\\w]+"),
    (anySuffix (procPatAt 's' 'p'), "sp_[\\w]+") ]

/-! ### SecurityConfig and validateQuery -/

/-- The SecurityConfig interface of the source. -/
structure SecurityConfig where
  enableQueryValidation : Bool
  maxQueryLength : Nat
  allowedOperations : List String
  blockedKeywords : List String
  maxRowsPerQuery : Nat

/-- The DEFAULT_CONFIG.security object of the source. -/
def defaultSecurity : SecurityConfig :=
  { enableQueryValidation := true
    maxQueryLength := 10000
    allowedOperations := ["SELECT", "INSERT", "UPDATE", "DELETE", "WITH"]
    blockedKeywords :=
      ["xp_cmdshell", "sp_execute", "openrowset", "opendatasource",
       "bulk", "exec(", "execute("]
    maxRowsPerQuery := 10000 }

/-- The ValidationResult shape returned by validateQuery. -/
structure ValidationResult where
  isValid : Bool
  errors : List String
  deriving DecidableEq

/-- First whitespace-delimited token of the trimmed query, upper-cased:
query.trim().split on whitespace, first element, toUpperCase. -/
def firstWord (query : String) : String :=
  String.mk (((trimChars query.data).takeWhile
    (fun c => !isSpaceJS c)).map Char.toUpper)

/-- Embedding of SecurityValidator.validateQuery.  The checks run in the
order of the source and each appends its errors; isValid is the test
that the error list has length zero. -/
def validateQuery (cfg : SecurityConfig) (query : String) : ValidationResult :=
  if cfg.enableQueryValidation = false then ⟨true, []⟩
  else
    let lengthErrs : List String :=
      if query.length > cfg.maxQueryLength then
        ["Query exceeds maximum length of " ++ toString cfg.maxQueryLength
          ++ " characters"]
      else []
    let lower := query.data.map Char.toLower
    let blockedErrs : List String :=
      cfg.blockedKeywords.filterMap (fun kw =>
        if containsSub lower (kw.data.map Char.toLower) then
          some ("Query contains blocked keyword: " ++ kw)
        else none)
    let dangerErrs : List String :=
      dangerousPatterns.filterMap (fun pt =>
        if pt.1 query.data then
          some ("Query contains potentially dangerous pattern: " ++ pt.2)
        else none)
    let opErrs : List String :=
      if 0 < cfg.allowedOperations.length then
        let w := firstWord query
        if w ≠ "" && !cfg.allowedOperations.contains w then
          ["Operation \x27" ++ w ++ "\x27 is not allowed. Allowed operations: "
            ++ String.intercalate ", " cfg.allowedOperations]
        else []
      else []
    let errors := lengthErrs ++ blockedErrs ++ dangerErrs ++ opErrs
    ⟨errors.length == 0, errors⟩

/-! ### sanitizeQuery -/

/-- Remove line comments as the global multiline replace of --.*$ does:
at each occurrence of two dashes, drop up to but not including the next
line terminator.  The flag records whether the scanner is currently
inside a dropped comment. -/
def stripLCAux : Bool → List Char → List Char
  | _, [] => []
  | true, c :: t => if isNl c then c :: stripLCAux false t else stripLCAux true t
  | false, '-' :: '-' :: t => stripLCAux true t
  | false, c :: t => c :: stripLCAux false t

def stripLineComments (l : List Char) : List Char := stripLCAux false l

/-- Find the closing star-slash of a block comment on the current line;
returns the remainder after it.  At each position: a star followed by a
slash closes the comment; a line terminator means the comment never
closes on this line (the dot of the regex cannot cross it); any other
character is skipped. -/
def findClose : List Char → Option (List Char)
  | [] => none
  | c :: t =>
      if c = '*' ∧ t.head? = some '/' then some t.tail
      else if isNl c then none else findClose t

/-- Remove block comments as the global lazy replace of a slash-star
slash-star-question pattern does: a comment is removed only when it
closes on the same line; an unclosed opener is kept.  The fuel argument
only serves structural termination; the comment removal consumes at
least one character of the remaining text per unit of fuel, so fuel
equal to the length of the text is always enough. -/
def stripBCAux : Nat → List Char → List Char
  | _, [] => []
  | 0, l => l
  | fuel + 1, '/' :: '*' :: t =>
      (match findClose t with
       | some rest => stripBCAux fuel rest
       | none => '/' :: stripBCAux fuel ('*' :: t))
  | fuel + 1, c :: t => c :: stripBCAux fuel t

def stripBlockComments (l : List Char) : List Char := stripBCAux l.length l

/-- Embedding of SecurityValidator.sanitizeQuery: strip line comments,
then block comments, then trim. -/
def sanitizeQuery (query : String) : String :=
  String.mk (trimChars (stripBlockComments (stripLineComments query.data)))

/-! ### Query executor: limit injection and execution -/

/-- The final text sent to the database together with the TOP value that
was injected into it, if any.  The source builds only the text; the
injected value is carried alongside so that the external database model
can honour the TOP clause without re-parsing the string. -/
structure QueryPlan where
  finalQuery : String
  topLimit : Option Nat
  deriving DecidableEq

/-- Does the sanitized text start with the word select followed by
whitespace, which is what the replace of the anchored case-insensitive
select-whitespace regex requires to fire? -/
def selectWsAt (l : List Char) : Bool :=
  prefixCI "select".data l &&
    (match l.drop 6 with
     | c :: _ => isSpaceJS c
     | [] => false)

/-- Remainder of the text after the matched select keyword and the
greedy whitespace run. -/
def dropSelectWs (l : List Char) : List Char :=
  (l.drop 6).dropWhile isSpaceJS

/-- Embedding of the limit-injection step of handleQuery: sanitize, and
when the limit is truthy, the lowercased trimmed text does not contain
the infix top with surrounding spaces, and it starts with select,
replace the leading select keyword by SELECT TOP k where k is the
caller limit clamped to maxRowsPerQuery. -/
def buildFinalQuery (cfg : SecurityConfig) (query : String) (limit : Nat) :
    QueryPlan :=
  let sanitized := sanitizeQuery query
  let trimmed := (trimChars sanitized.data).map Char.toLower
  if limit ≠ 0 ∧ containsSub trimmed " top ".data = false ∧
      "select".data.isPrefixOf trimmed then
    let k := min limit cfg.maxRowsPerQuery
    if selectWsAt sanitized.data then
      ⟨String.mk (("SELECT TOP " ++ toString k ++ " ").data
         ++ dropSelectWs sanitized.data), some k⟩
    else ⟨sanitized, none⟩
  else ⟨sanitized, none⟩

/-- External database model for a read: the table could supply a given
number of rows; a TOP clause caps the recordset at its value, otherwise
every available row comes back. -/
def rowsReturned (plan : QueryPlan) (available : Nat) : Nat :=
  match plan.topLimit with
  | some k => min k available
  | none => available

/-! ### Errors and metrics -/

/-- The MCPError shape: message, stable code, and the detail list the
source attaches for validation failures. -/
structure MCPErr where
  message : String
  code : String
  detailErrors : List String
  deriving DecidableEq

/-- The process-wide metrics object of the server. -/
structure Metrics where
  totalQueries : Nat
  failedQueries : Nat
  avgExecutionTime : ℚ
  connectionCount : Nat
  cacheHits : Nat
  deriving DecidableEq

/-- External outcome of the connection acquisition and query execution,
which happen outside the repository. -/
inductive DbOutcome where
  | connFail
  | execFail
  | ok (rowsAvailable : Nat)
  deriving DecidableEq

/-- Result shape of a successful run-query call (the fields the claims
mention). -/
structure QueryResult where
  rowCount : Nat
  finalQuery : String
  deriving DecidableEq

/-- Observable trace of one handleQuery call: its outcome, the metrics
after the call, and how many connections were acquired and queries sent
to the database. -/
structure HandleQueryTrace where
  result : Except MCPErr QueryResult
  metrics : Metrics
  connectionsAcquired : Nat
  queriesSent : Nat

/-- Embedding of handleQuery.  totalQueries is incremented at entry,
before the try block; any failure inside the try block increments
failedQueries and re-raises (a connection failure increments it once
more inside getConnection); on success the running average is
re-averaged over the already incremented totalQueries. -/
def handleQuery (cfg : SecurityConfig) (m0 : Metrics) (query : String)
    (limit : Nat) (elapsed : ℚ) (db : DbOutcome) : HandleQueryTrace :=
  let m1 : Metrics := { m0 with totalQueries := m0.totalQueries + 1 }
  let validation := validateQuery cfg query
  if validation.isValid = false then
    { result := .error
        ⟨"Query validation failed: " ++ String.intercalate ", " validation.errors,
         "QUERY_VALIDATION_ERROR", validation.errors⟩
      metrics := { m1 with failedQueries := m1.failedQueries + 1 }
      connectionsAcquired := 0
      queriesSent := 0 }
  else
    let plan := buildFinalQuery cfg query limit
    match db with
    | .connFail =>
        { result := .error
            ⟨"Failed to connect to database", "CONNECTION_ERROR", []⟩
          metrics := { m1 with failedQueries := m1.failedQueries + 2 }
          connectionsAcquired := 0
          queriesSent := 0 }
    | .execFail =>
        { result := .error ⟨"Query execution failed", "EXECUTION_ERROR", []⟩
          metrics := { m1 with failedQueries := m1.failedQueries + 1 }
          connectionsAcquired := 1
          queriesSent := 1 }
    | .ok avail =>
        { result := .ok ⟨rowsReturned plan avail, plan.finalQuery⟩
          metrics := { m1 with avgExecutionTime :=
            (m1.avgExecutionTime + elapsed) / (m1.totalQueries : ℚ) }
          connectionsAcquired := 1
          queriesSent := 1 }

/-! ### Connection pool registry -/

/-- A pooled connection as the registry sees it: an identity for the
underlying pool object plus the liveness flags the source reads. -/
structure Pool where
  id : Nat
  connected : Bool
  healthy : Bool
  deriving DecidableEq

/-- The per-call connection configuration (ConnectionSchema). -/
structure ConnectionConfig where
  server : String
  port : Nat
  user : String
  password : String
  database : Option String
  encrypt : Bool
  trustServerCertificate : Bool
  deriving DecidableEq

/-- Embedding of createConnectionKey: server, port, user and the
database name or the literal default, joined by colons. -/
def createConnectionKey (c : ConnectionConfig) : String :=
  c.server ++ ":" ++ toString c.port ++ ":" ++ c.user ++ ":"
    ++ c.database.getD "default"

/-- Lookup in the registry map (a JavaScript Map keyed by strings). -/
def mapFind (k : String) : List (String × Pool) → Option Pool
  | [] => none
  | (k0, v0) :: t => if k0 = k then some v0 else mapFind k t

/-- Deletion from the registry map. -/
def mapErase (k : String) : List (String × Pool) → List (String × Pool)
  | [] => []
  | (k0, v0) :: t => if k0 = k then t else (k0, v0) :: mapErase k t

/-- Insertion into the registry map: replace in place when the key is
present, append otherwise, as Map.set does. -/
def mapSet (k : String) (v : Pool) : List (String × Pool) → List (String × Pool)
  | [] => [(k, v)]
  | (k0, v0) :: t => if k0 = k then (k, v) :: t else (k0, v0) :: mapSet k v t

/-- State owned by the registry: the pool map and the shared metrics. -/
structure RegistryState where
  pools : List (String × Pool)
  metrics : Metrics
  deriving DecidableEq

/-- External outcome of opening and connecting a fresh pool. -/
inductive ConnectOutcome where
  | ok (fresh : Pool)
  | fail (msg : String)
  deriving DecidableEq

/-- Embedding of getConnection: compute the key; a cached entry that
reports connected counts a cache hit and is returned; a cached entry
that is disconnected is deleted; absent that, a fresh pool is opened,
registered under the key and counted, and a connect failure increments
failedQueries and raises CONNECTION_ERROR. -/
def getConnection (st : RegistryState) (cfg : ConnectionConfig)
    (co : ConnectOutcome) : RegistryState × Except MCPErr Pool :=
  let key := createConnectionKey cfg
  match mapFind key st.pools with
  | some p =>
      if p.connected then
        ({ st with metrics :=
            { st.metrics with cacheHits := st.metrics.cacheHits + 1 } },
         .ok p)
      else
        connectFresh { st with pools := mapErase key st.pools } key co
  | none => connectFresh st key co
where
  /-- Open a fresh pool: on success register it and count the new
  connection; on failure count a failed query and raise. -/
  connectFresh (st : RegistryState) (key : String) (co : ConnectOutcome) :
      RegistryState × Except MCPErr Pool :=
    match co with
    | .ok fresh =>
        ({ st with
            pools := mapSet key fresh st.pools
            metrics := { st.metrics with
              connectionCount := st.metrics.connectionCount + 1 } },
         .ok fresh)
    | .fail msg =>
        ({ st with metrics := { st.metrics with
            failedQueries := st.metrics.failedQueries + 1 } },
         .error ⟨"Failed to connect to database: " ++ msg,
           "CONNECTION_ERROR", []⟩)

/-! ### Bulk insert engine -/

/-- A row to insert: association of column names to opaque values. -/
abbrev Row := List (String × String)

/-- Report of a successful bulk insert. -/
structure BulkReport where
  totalRowsProcessed : Nat
  totalRowsInserted : Nat
  deriving DecidableEq

/-- Observable trace of one handleBulkInsert call. -/
structure BulkTrace where
  result : Except MCPErr BulkReport
  connectionsAcquired : Nat
  schemaQueries : Nat
  insertsIssued : Nat

/-- Partition the rows into fixed batches of one hundred, as the for
loop with a step of the batch size does. -/
def batches : List Row → List (List Row)
  | [] => []
  | a :: t => (a :: t).take 100 :: batches ((a :: t).drop 100)
termination_by l => l.length
decreasing_by
  simp [List.length_drop]
  omega

/-- Run the batched inserts in order.  The external database reports,
per batch index, either the affected-row count or a failure.  Returns
the accumulated inserted total when every batch succeeds (none on a
batch failure, which aborts the loop) and the number of insert
statements actually issued. -/
def runBatches (ins : Nat → Option Nat) :
    List (List Row) → Nat → Nat → Option Nat × Nat
  | [], _, acc => (some acc, 0)
  | _ :: bs, i, acc =>
      match ins i with
      | none => (none, 1)
      | some n =>
          let r := runBatches ins bs (i + 1) (acc + n)
          (r.1, r.2 + 1)

/-- The catch block of handleBulkInsert: every error thrown inside the
try block is re-wrapped with the BULK_INSERT_ERROR code. -/
def wrapBulkError (e : MCPErr) : MCPErr :=
  ⟨"Bulk insert failed: " ++ e.message, "BULK_INSERT_ERROR", []⟩

/-- Embedding of handleBulkInsert.  The empty-data check precedes the
try block, so its INVALID_DATA error is not wrapped and no database
call is made.  Inside the try block: the schema of the target table is
fetched (tableColumns is the recordset of that query); a missing table
or an unknown key in the first row throws, and the catch block wraps
the error; otherwise the batches run in order, aborting on the first
failed batch.  The SQL text assembly of the insert statement is
parameterized away into the per-batch outcome function. -/
def handleBulkInsert (tableColumns : List String) (table : String)
    (data : List Row) (ins : Nat → Option Nat) : BulkTrace :=
  if data.isEmpty then
    { result := .error ⟨"Data must be a non-empty array", "INVALID_DATA", []⟩
      connectionsAcquired := 0, schemaQueries := 0, insertsIssued := 0 }
  else
    if tableColumns.isEmpty then
      { result := .error (wrapBulkError
          ⟨"Table \x27" ++ table ++ "\x27 not found", "TABLE_NOT_FOUND", []⟩)
        connectionsAcquired := 1, schemaQueries := 1, insertsIssued := 0 }
    else
      let columnNames := tableColumns
      let dataColumns := (data.headD []).map Prod.fst
      let invalidColumns := dataColumns.filter
        (fun c => !columnNames.contains c)
      if invalidColumns.isEmpty = false then
        { result := .error (wrapBulkError
            ⟨"Invalid columns: " ++ String.intercalate ", " invalidColumns
              ++ ". Valid columns: " ++ String.intercalate ", " columnNames,
             "INVALID_COLUMNS", []⟩)
          connectionsAcquired := 1, schemaQueries := 1, insertsIssued := 0 }
      else
        let r := runBatches ins (batches data) 0 0
        match r.1 with
        | none =>
            { result := .error (wrapBulkError
                ⟨"execution failed", "EXECUTION_ERROR", []⟩)
              connectionsAcquired := 1, schemaQueries := 1
              insertsIssued := r.2 }
        | some total =>
            { result := .ok ⟨data.length, total⟩
              connectionsAcquired := 1, schemaQueries := 1
              insertsIssued := r.2 }

/-! ## Theorems for the claims -/

/-- C7: with queryValidationEnabled false, validateQuery returns valid
true with an empty error list for every query: no length, blocked
substring, dangerous pattern or leading keyword check is applied. -/
theorem c7_validation_disabled (cfg : SecurityConfig) (q : String)
    (h : cfg.enableQueryValidation = false) :
    validateQuery cfg q = ⟨true, []⟩ := by
  simp [validateQuery, h]

theorem c7_validation_disabled_witness :
    validateQuery { defaultSecurity with enableQueryValidation := false }
      "DROP TABLE X; xp_cmdshell rm" = ⟨true, []⟩ :=
  c7_validation_disabled _ _ rfl

/-- C6: with validation enabled and a non-empty allowed-operation set,
a query whose first whitespace-delimited token, upper-cased, is not in
the set is invalid, and the error list names the token and the set. -/
theorem c6_leading_keyword (cfg : SecurityConfig) (q : String)
    (hen : cfg.enableQueryValidation = true)
    (hne : cfg.allowedOperations ≠ [])
    (hw : firstWord q ≠ "")
    (hmem : cfg.allowedOperations.contains (firstWord q) = false) :
    (validateQuery cfg q).isValid = false ∧
    ("Operation \x27" ++ firstWord q
        ++ "\x27 is not allowed. Allowed operations: "
        ++ String.intercalate ", " cfg.allowedOperations)
      ∈ (validateQuery cfg q).errors := by
  have hlen : 0 < cfg.allowedOperations.length := List.length_pos.mpr hne
  have hmem2 : firstWord q ∉ cfg.allowedOperations := by simpa using hmem
  simp [validateQuery, hen, hlen, hw, hmem, hmem2]

theorem c6_leading_keyword_witness :
    (validateQuery defaultSecurity "DROP TABLE X").isValid = false ∧
    ("Operation \x27" ++ firstWord "DROP TABLE X"
        ++ "\x27 is not allowed. Allowed operations: "
        ++ String.intercalate ", " defaultSecurity.allowedOperations)
      ∈ (validateQuery defaultSecurity "DROP TABLE X").errors :=
  c6_leading_keyword defaultSecurity "DROP TABLE X" rfl (by decide)
    (by decide) (by decide)

/-- C5: when the validator rejects the query text, handleQuery raises
the QUERY_VALIDATION_ERROR with the complete error list attached, no
connection is acquired, and no query is sent to the database. -/
theorem c5_validation_failure_no_db (cfg : SecurityConfig) (m0 : Metrics)
    (q : String) (limit : Nat) (elapsed : ℚ) (db : DbOutcome)
    (h : (validateQuery cfg q).isValid = false) :
    (handleQuery cfg m0 q limit elapsed db).result = .error
      ⟨"Query validation failed: "
          ++ String.intercalate ", " (validateQuery cfg q).errors,
       "QUERY_VALIDATION_ERROR", (validateQuery cfg q).errors⟩ ∧
    (handleQuery cfg m0 q limit elapsed db).connectionsAcquired = 0 ∧
    (handleQuery cfg m0 q limit elapsed db).queriesSent = 0 := by
  simp [handleQuery, h]

theorem c5_validation_failure_no_db_witness :
    (handleQuery defaultSecurity ⟨0, 0, 0, 0, 0⟩ "DROP TABLE X" 5 1
        (.ok 3)).result = .error
      ⟨"Query validation failed: " ++ String.intercalate ", "
          (validateQuery defaultSecurity "DROP TABLE X").errors,
       "QUERY_VALIDATION_ERROR",
       (validateQuery defaultSecurity "DROP TABLE X").errors⟩ ∧
    (handleQuery defaultSecurity ⟨0, 0, 0, 0, 0⟩ "DROP TABLE X" 5 1
        (.ok 3)).connectionsAcquired = 0 ∧
    (handleQuery defaultSecurity ⟨0, 0, 0, 0, 0⟩ "DROP TABLE X" 5 1
        (.ok 3)).queriesSent = 0 :=
  c5_validation_failure_no_db defaultSecurity ⟨0, 0, 0, 0, 0⟩ "DROP TABLE X"
    5 1 (.ok 3) (by decide)

/-- C1 (amended): when the caller limit is nonzero, the sanitized text
lowercased and trimmed does not contain the spaced top infix and starts
with select, and the select keyword is followed by whitespace so the
anchored replace fires, a TOP clause with the value min(limit,
maxRowsPerQuery) is injected and the executed query returns at most
that many rows.  Without those conditions no limiting clause is
injected, so the original claim fails (see the counterexample). -/
theorem c1_top_clamped (cfg : SecurityConfig) (q : String) (limit : Nat)
    (h0 : limit ≠ 0)
    (h1 : containsSub ((trimChars (sanitizeQuery q).data).map Char.toLower)
      " top ".data = false)
    (h2 : "select".data.isPrefixOf
      ((trimChars (sanitizeQuery q).data).map Char.toLower) = true)
    (h3 : selectWsAt (sanitizeQuery q).data = true) :
    (buildFinalQuery cfg q limit).topLimit
      = some (min limit cfg.maxRowsPerQuery) ∧
    ∀ avail, rowsReturned (buildFinalQuery cfg q limit) avail
      ≤ min limit cfg.maxRowsPerQuery := by
  have hplan : buildFinalQuery cfg q limit =
      ⟨String.mk (("SELECT TOP " ++ toString (min limit cfg.maxRowsPerQuery)
          ++ " ").data ++ dropSelectWs (sanitizeQuery q).data),
       some (min limit cfg.maxRowsPerQuery)⟩ := by
    simp [buildFinalQuery, h0, h1, h2, h3]
  refine ⟨by rw [hplan], fun avail => ?_⟩
  rw [hplan]
  simp [rowsReturned]

theorem c1_top_clamped_witness :
    (buildFinalQuery defaultSecurity "SELECT * FROM Customers" 5).topLimit
      = some (min 5 defaultSecurity.maxRowsPerQuery) ∧
    rowsReturned (buildFinalQuery defaultSecurity "SELECT * FROM Customers" 5)
      10 ≤ min 5 defaultSecurity.maxRowsPerQuery :=
  ⟨(c1_top_clamped defaultSecurity "SELECT * FROM Customers" 5 (by decide)
      (by decide) (by decide) (by decide)).1,
   (c1_top_clamped defaultSecurity "SELECT * FROM Customers" 5 (by decide)
      (by decide) (by decide) (by decide)).2 10⟩

/-- C1 counterexample: a run-query call whose statement is a WITH query
(an allowed leading keyword) gets no injected limiting clause, so with
limit five and ten available rows the call returns ten rows, exceeding
min(limit, maxRowsPerQuery) = 5: the unconditional bound of the claim
is false. -/
theorem c1_counterexample :
    (handleQuery defaultSecurity ⟨0, 0, 0, 0, 0⟩
        "WITH t AS (SELECT 1 AS x) SELECT x FROM t" 5 1 (.ok 10)).result
      = .ok ⟨10, "WITH t AS (SELECT 1 AS x) SELECT x FROM t"⟩ ∧
    ¬ (10 ≤ min 5 defaultSecurity.maxRowsPerQuery) :=
  ⟨rfl, by decide⟩

/-- C3 (amended): totalQueries is incremented at entry, before the try
block, so a failing execution still increments it; on execution failure
failedQueries is incremented and the error re-raised; on success the
running average is updated by the cumulative re-average formula
dividing by the already incremented totalQueries. -/
theorem c3_metrics_update (cfg : SecurityConfig) (m0 : Metrics) (q : String)
    (limit : Nat) (elapsed : ℚ)
    (hv : (validateQuery cfg q).isValid = true) :
    ((handleQuery cfg m0 q limit elapsed .execFail).metrics.totalQueries
        = m0.totalQueries + 1 ∧
     (handleQuery cfg m0 q limit elapsed .execFail).metrics.failedQueries
        = m0.failedQueries + 1 ∧
     (handleQuery cfg m0 q limit elapsed .execFail).metrics.avgExecutionTime
        = m0.avgExecutionTime ∧
     (handleQuery cfg m0 q limit elapsed .execFail).result
        = .error ⟨"Query execution failed", "EXECUTION_ERROR", []⟩) ∧
    (∀ avail,
     (handleQuery cfg m0 q limit elapsed (.ok avail)).metrics.totalQueries
        = m0.totalQueries + 1 ∧
     (handleQuery cfg m0 q limit elapsed (.ok avail)).metrics.failedQueries
        = m0.failedQueries ∧
     (handleQuery cfg m0 q limit elapsed (.ok avail)).metrics.avgExecutionTime
        = (m0.avgExecutionTime + elapsed) / ((m0.totalQueries + 1 : Nat) : ℚ)) := by
  simp [handleQuery, hv]

theorem c3_metrics_update_witness :
    ((handleQuery defaultSecurity ⟨7, 2, 3, 0, 0⟩ "SELECT 1" 5 9
        .execFail).metrics.totalQueries = 8 ∧
     (handleQuery defaultSecurity ⟨7, 2, 3, 0, 0⟩ "SELECT 1" 5 9
        .execFail).metrics.failedQueries = 3 ∧
     (handleQuery defaultSecurity ⟨7, 2, 3, 0, 0⟩ "SELECT 1" 5 9
        .execFail).metrics.avgExecutionTime = 3 ∧
     (handleQuery defaultSecurity ⟨7, 2, 3, 0, 0⟩ "SELECT 1" 5 9
        .execFail).result
        = .error ⟨"Query execution failed", "EXECUTION_ERROR", []⟩) ∧
    ((handleQuery defaultSecurity ⟨7, 2, 3, 0, 0⟩ "SELECT 1" 5 9
        (.ok 2)).metrics.totalQueries = 8 ∧
     (handleQuery defaultSecurity ⟨7, 2, 3, 0, 0⟩ "SELECT 1" 5 9
        (.ok 2)).metrics.failedQueries = 2 ∧
     (handleQuery defaultSecurity ⟨7, 2, 3, 0, 0⟩ "SELECT 1" 5 9
        (.ok 2)).metrics.avgExecutionTime = (3 + 9) / ((7 + 1 : Nat) : ℚ)) := by
  have h := c3_metrics_update defaultSecurity ⟨7, 2, 3, 0, 0⟩ "SELECT 1" 5 9
    (by decide)
  exact ⟨h.1, h.2 2⟩

/-- C3 counterexample: a failing execution does increment totalQueries
(the increment happens at entry, before the try block), contradicting
the claim that a failing call leaves totalQueries unchanged. -/
theorem c3_counterexample :
    (validateQuery defaultSecurity "SELECT 1").isValid = true ∧
    (handleQuery defaultSecurity ⟨0, 0, 0, 0, 0⟩ "SELECT 1" 5 1
        .execFail).metrics.failedQueries = 1 ∧
    (handleQuery defaultSecurity ⟨0, 0, 0, 0, 0⟩ "SELECT 1" 5 1
        .execFail).metrics.totalQueries ≠ 0 := by
  refine ⟨by decide, rfl, ?_⟩
  intro h
  simp only [handleQuery] at h
  split at h <;> simp at h

/-- C2: for two getConnection calls whose credentials yield the same
fingerprint, with the cached entry still connected and healthy the
second call returns exactly that entry and bumps the cache-hit counter;
with the cached entry disconnected it is evicted, a fresh pool is
registered in its place, the connections-created counter is bumped and
the fresh connected pool is returned, so a dead entry is never handed
to a caller. -/
theorem c2_pool_reuse (st : RegistryState) (cfg1 cfg2 : ConnectionConfig)
    (p : Pool)
    (hkey : createConnectionKey cfg1 = createConnectionKey cfg2)
    (hfind : mapFind (createConnectionKey cfg1) st.pools = some p) :
    (p.connected = true → p.healthy = true → ∀ co,
      getConnection st cfg2 co =
        ({ st with metrics :=
            { st.metrics with cacheHits := st.metrics.cacheHits + 1 } },
         .ok p)) ∧
    (p.connected = false → ∀ fresh, fresh.connected = true →
      getConnection st cfg2 (.ok fresh) =
        ({ st with
            pools := mapSet (createConnectionKey cfg2) fresh
              (mapErase (createConnectionKey cfg2) st.pools)
            metrics := { st.metrics with
              connectionCount := st.metrics.connectionCount + 1 } },
         .ok fresh) ∧
      ∀ q, (getConnection st cfg2 (.ok fresh)).2 = .ok q →
        q.connected = true) := by
  rw [hkey] at hfind
  constructor
  · intro hc _ co
    simp [getConnection, hfind, hc]
  · intro hc fresh hfresh
    constructor
    · simp [getConnection, getConnection.connectFresh, hfind, hc]
    · intro q hq
      simp [getConnection, getConnection.connectFresh, hfind, hc] at hq
      rw [← hq]
      exact hfresh

theorem c2_pool_reuse_witness :
    (getConnection
      ⟨[("h:1433:u:db", ⟨1, true, true⟩)], ⟨0, 0, 0, 0, 0⟩⟩
      ⟨"h", 1433, "u", "otherPassword", some "db", true, true⟩
      (.ok ⟨2, true, true⟩) =
      (⟨[("h:1433:u:db", ⟨1, true, true⟩)], ⟨0, 0, 0, 0, 1⟩⟩,
       .ok ⟨1, true, true⟩)) ∧
    (getConnection
      ⟨[("h:1433:u:db", ⟨1, false, true⟩)], ⟨0, 0, 0, 0, 0⟩⟩
      ⟨"h", 1433, "u", "u", some "db", true, true⟩
      (.ok ⟨2, true, true⟩) =
      (⟨[("h:1433:u:db", ⟨2, true, true⟩)], ⟨0, 0, 0, 1, 0⟩⟩,
       .ok ⟨2, true, true⟩)) := by
  constructor
  · exact (c2_pool_reuse ⟨[("h:1433:u:db", ⟨1, true, true⟩)], ⟨0, 0, 0, 0, 0⟩⟩
      ⟨"h", 1433, "u", "firstPassword", some "db", true, true⟩
      ⟨"h", 1433, "u", "otherPassword", some "db", true, true⟩
      ⟨1, true, true⟩ rfl rfl).1 rfl rfl (.ok ⟨2, true, true⟩)
  · have h := ((c2_pool_reuse
      ⟨[("h:1433:u:db", ⟨1, false, true⟩)], ⟨0, 0, 0, 0, 0⟩⟩
      ⟨"h", 1433, "u", "u", some "db", true, true⟩
      ⟨"h", 1433, "u", "u", some "db", true, true⟩
      ⟨1, false, true⟩ rfl rfl).2 rfl ⟨2, true, true⟩ rfl).1
    simpa using h

/-- C10: the connection fingerprint depends only on server, port, user
and database-or-default; two calls agreeing on those four fields map to
the same cache slot regardless of password, encrypt and certificate
trust, and while the cached pool of the first call is connected the
second call gets that pool back with its supplied password never
examined. -/
theorem c10_fingerprint_ignores_password (c1 c2 : ConnectionConfig)
    (hs : c1.server = c2.server) (hp : c1.port = c2.port)
    (hu : c1.user = c2.user) (hd : c1.database = c2.database) :
    createConnectionKey c1 = createConnectionKey c2 ∧
    ∀ st p co, mapFind (createConnectionKey c1) st.pools = some p →
      p.connected = true → (getConnection st c2 co).2 = .ok p := by
  have hkey : createConnectionKey c1 = createConnectionKey c2 := by
    simp [createConnectionKey, hs, hp, hu, hd]
  refine ⟨hkey, fun st p co hfind hc => ?_⟩
  rw [hkey] at hfind
  simp [getConnection, hfind, hc]

theorem c10_fingerprint_ignores_password_witness :
    createConnectionKey ⟨"h", 1433, "u", "passwordA", some "db", true, true⟩
      = createConnectionKey ⟨"h", 1433, "u", "passwordB", some "db", false, false⟩ ∧
    (getConnection ⟨[("h:1433:u:db", ⟨1, true, true⟩)], ⟨0, 0, 0, 0, 0⟩⟩
        ⟨"h", 1433, "u", "passwordB", some "db", false, false⟩
        (.fail "unreachable")).2 = .ok ⟨1, true, true⟩ :=
  ⟨(c10_fingerprint_ignores_password
      ⟨"h", 1433, "u", "passwordA", some "db", true, true⟩
      ⟨"h", 1433, "u", "passwordB", some "db", false, false⟩
      rfl rfl rfl rfl).1,
   (c10_fingerprint_ignores_password
      ⟨"h", 1433, "u", "passwordA", some "db", true, true⟩
      ⟨"h", 1433, "u", "passwordB", some "db", false, false⟩
      rfl rfl rfl rfl).2
     ⟨[("h:1433:u:db", ⟨1, true, true⟩)], ⟨0, 0, 0, 0, 0⟩⟩
     ⟨1, true, true⟩ (.fail "unreachable") rfl rfl⟩

theorem isEmpty_false_of_ne_nil {α : Type} (l : List α) (h : l ≠ []) :
    l.isEmpty = false := by
  cases l with
  | nil => exact absurd rfl h
  | cons a t => rfl

/-- C9: bulkInsert with an empty row list fails with the unwrapped
INVALID_DATA validation error before the try block, acquiring no
connection, fetching no schema and issuing no insert. -/
theorem c9_empty_rows (tableColumns : List String) (table : String)
    (ins : Nat → Option Nat) :
    handleBulkInsert tableColumns table [] ins =
      { result := .error ⟨"Data must be a non-empty array", "INVALID_DATA", []⟩
        connectionsAcquired := 0, schemaQueries := 0, insertsIssued := 0 } := by
  simp [handleBulkInsert]

/-- C4 (amended): an unknown key in the first row aborts the operation
before any insert is issued, and the raised error names the offending
keys and the valid column set; but because the catch block of the
handler re-wraps every error thrown inside the try block, the surfaced
error carries the BULK_INSERT_ERROR code that execution failures also
carry, not a distinct validation code. -/
theorem c4_invalid_columns (tableColumns : List String) (table : String)
    (data : List Row) (ins : Nat → Option Nat)
    (hne : data ≠ []) (hcols : tableColumns ≠ [])
    (hinv : ((data.headD []).map Prod.fst).filter
      (fun c => !tableColumns.contains c) ≠ []) :
    (handleBulkInsert tableColumns table data ins).result = .error
      ⟨"Bulk insert failed: " ++ ("Invalid columns: "
          ++ String.intercalate ", " (((data.headD []).map Prod.fst).filter
            (fun c => !tableColumns.contains c))
          ++ ". Valid columns: " ++ String.intercalate ", " tableColumns),
       "BULK_INSERT_ERROR", []⟩ ∧
    (handleBulkInsert tableColumns table data ins).insertsIssued = 0 := by
  have hne2 := isEmpty_false_of_ne_nil data hne
  have hcols2 := isEmpty_false_of_ne_nil tableColumns hcols
  have hinv2 := isEmpty_false_of_ne_nil _ hinv
  simp only [handleBulkInsert]
  rw [if_neg (by simp [hne2]), if_neg (by simp [hcols2]), if_pos hinv2]
  exact ⟨rfl, rfl⟩

theorem c4_invalid_columns_witness :
    (handleBulkInsert ["id", "name"] "T" [[("bogus", "1"), ("id", "2")]]
        (fun _ => some 1)).result = .error
      ⟨"Bulk insert failed: Invalid columns: bogus. Valid columns: id, name",
       "BULK_INSERT_ERROR", []⟩ ∧
    (handleBulkInsert ["id", "name"] "T" [[("bogus", "1"), ("id", "2")]]
        (fun _ => some 1)).insertsIssued = 0 :=
  c4_invalid_columns ["id", "name"] "T" [[("bogus", "1"), ("id", "2")]]
    (fun _ => some 1) (by decide) (by decide) (by decide)

/-- C4 counterexample: at a concrete unknown-column input the operation
fails with the same BULK_INSERT_ERROR code that database execution
failures produce, so the failure is not distinguishable as a validation
error, contradicting the claim that a ValidationError rather than an
ExecutionError is raised. -/
theorem c4_counterexample :
    (handleBulkInsert ["id", "name"] "T" [[("bogus", "1")]]
        (fun _ => some 1)).result = .error
      ⟨"Bulk insert failed: Invalid columns: bogus. Valid columns: id, name",
       "BULK_INSERT_ERROR", []⟩ ∧
    (handleBulkInsert ["id", "name"] "T" [] (fun _ => none)).result = .error
      ⟨"Data must be a non-empty array", "INVALID_DATA", []⟩ ∧
    "BULK_INSERT_ERROR" ≠ "INVALID_COLUMNS" :=
  ⟨rfl, rfl, by decide⟩

theorem batches_cons (l : List Row) (h : l ≠ []) :
    batches l = l.take 100 :: batches (l.drop 100) := by
  cases l with
  | nil => exact absurd rfl h
  | cons a t => simp [batches]

/-- C8: a valid 250-row bulk insert partitions the rows into batches of
100, 100 and 50 in input order, issues exactly 3 batched inserts,
reports the full input count as rowsProcessed, and reports the sum of
the per-batch affected counts as rowsInserted. -/
theorem c8_batching (tableColumns : List String) (table : String)
    (data : List Row) (a : Nat → Nat)
    (h250 : data.length = 250)
    (hcols : tableColumns ≠ [])
    (hvalid : ((data.headD []).map Prod.fst).filter
      (fun c => !tableColumns.contains c) = []) :
    (batches data).map List.length = [100, 100, 50] ∧
    (batches data).flatten = data ∧
    (handleBulkInsert tableColumns table data
      (fun i => some (a i))).insertsIssued = 3 ∧
    (handleBulkInsert tableColumns table data
      (fun i => some (a i))).result = .ok ⟨250, a 0 + a 1 + a 2⟩ := by
  have h1 : data ≠ [] := by
    intro h
    rw [h] at h250
    simp at h250
  have d1 : (data.drop 100).length = 150 := by rw [List.length_drop, h250]
  have d2 : ((data.drop 100).drop 100).length = 50 := by
    rw [List.length_drop, d1]
  have n2 : data.drop 100 ≠ [] := by
    intro h
    rw [h] at d1
    simp at d1
  have n3 : (data.drop 100).drop 100 ≠ [] := by
    intro h
    rw [h] at d2
    simp at d2
  have d3 : ((data.drop 100).drop 100).drop 100 = [] := by
    have : (((data.drop 100).drop 100).drop 100).length = 0 := by
      rw [List.length_drop, d2]
    exact List.eq_nil_of_length_eq_zero this
  have t3 : ((data.drop 100).drop 100).take 100 = (data.drop 100).drop 100 :=
    List.take_of_length_le (by rw [d2]; omega)
  have hb : batches data = [data.take 100, (data.drop 100).take 100,
      ((data.drop 100).drop 100).take 100] := by
    rw [batches_cons data h1, batches_cons _ n2, batches_cons _ n3, d3]
    simp [batches]
  have hne2 := isEmpty_false_of_ne_nil data h1
  have hcols2 := isEmpty_false_of_ne_nil tableColumns hcols
  refine ⟨?_, ?_, ?_, ?_⟩
  · rw [hb]
    simp [List.length_take, h250, d1, d2]
  · rw [hb]
    simp only [List.flatten, List.append_nil, t3]
    rw [List.take_append_drop, List.take_append_drop]
  · simp only [handleBulkInsert]
    rw [if_neg (by simp [hne2]), if_neg (by simp [hcols2]),
        if_neg (by rw [hvalid]; simp), hb]
    simp [runBatches]
  · simp only [handleBulkInsert]
    rw [if_neg (by simp [hne2]), if_neg (by simp [hcols2]),
        if_neg (by rw [hvalid]; simp), hb]
    simp [runBatches, h250]

theorem c8_batching_witness :
    (handleBulkInsert ["id"] "T" (List.replicate 250 [("id", "v")])
        (fun _ => some 1)).insertsIssued = 3 ∧
    (handleBulkInsert ["id"] "T" (List.replicate 250 [("id", "v")])
        (fun _ => some 1)).result = .ok ⟨250, 3⟩ := by
  have h := c8_batching ["id"] "T" (List.replicate 250 [("id", "v")])
    (fun _ => 1) (List.length_replicate _ _) (by decide) (by rfl)
  exact ⟨h.2.2.1, h.2.2.2⟩

end MSSQL
